import Mathlib

/-!
Verification of the moderation-api gateway against its specification.

Python strings are embedded as `List Char`; each definition below mirrors
one function of the source (file and symbol named in its doc comment).
-/

namespace ModerationAPI

/-- Characters removed by Python's str.strip() at either end (whitespace). -/
def isPySpace (c : Char) : Bool :=
  c == ' ' || c == '\t' || c == '\n' || c == '\r' || c == '\x0b' || c == '\x0c'

/-- Python str.strip(): drop whitespace from both ends. -/
def pyStrip (s : List Char) : List Char :=
  ((s.dropWhile isPySpace).reverse.dropWhile isPySpace).reverse

/-- Python `c in s` membership test on a string. -/
def hasChar (c : Char) : List Char → Bool
  | [] => false
  | d :: ds => d == c || hasChar c ds

/-- Python `s.split(':')[0]`: the segment of `s` before the first colon
(the whole string when no colon occurs). -/
def beforeColon : List Char → List Char
  | [] => []
  | c :: cs => if c == ':' then [] else c :: beforeColon cs

/-- src/app/utils/errors.py, ERROR_CODE_MAPPING: domain error code to HTTP status. -/
def ERROR_CODE_MAPPING : List (List Char × Nat) := [
  ("INVALID_TARGET_TYPE".data, 400),
  ("INVALID_REPORT_TYPE".data, 400),
  ("INVALID_STATUS".data, 400),
  ("INVALID_MODERATION_STATUS".data, 400),
  ("INVALID_BAN_TYPE".data, 400),
  ("INVALID_DURATION".data, 400),
  ("INVALID_CONTENT_TYPE".data, 400),
  ("INVALID_STATUS_TRANSITION".data, 400),
  ("INVALID_DATE_RANGE".data, 400),
  ("DURATION_REQUIRED".data, 400),
  ("USER_ALREADY_BANNED".data, 400),
  ("USER_NOT_BANNED".data, 400),
  ("CONTENT_ALREADY_REMOVED".data, 400),
  ("NO_MAIN_PHOTO".data, 400),
  ("CANNOT_SELF_REPORT".data, 400),
  ("CANNOT_SELF_BAN".data, 400),
  ("INSUFFICIENT_PERMISSIONS".data, 403),
  ("ADMIN_INACTIVE".data, 403),
  ("REPORTER_NOT_FOUND".data, 404),
  ("ADMIN_NOT_FOUND".data, 404),
  ("USER_NOT_FOUND".data, 404),
  ("TARGET_NOT_FOUND".data, 404),
  ("REPORT_NOT_FOUND".data, 404),
  ("CONTENT_NOT_FOUND".data, 404),
  ("DUPLICATE_REPORT".data, 409)]

/-- Python `ERROR_CODE_MAPPING.get(code, default)` modulo the default:
association-list lookup of a code in the table. -/
def lookupCode (code : List Char) : Option Nat :=
  ERROR_CODE_MAPPING.lookup code

/-- src/app/utils/errors.py, map_sp_error_to_http: extract the code before the
first colon (whole string when no colon), strip it, look it up with default
500, and return the original message alongside the status. -/
def map_sp_error_to_http (error_message : List Char) : Nat × List Char :=
  let error_code :=
    if hasChar ':' error_message then pyStrip (beforeColon error_message)
    else pyStrip error_message
  let status_code := (lookupCode error_code).getD 500
  (status_code, error_message)

/-- The code-extraction rule as the spec words it: the substring before the
first colon, whitespace-stripped (the whole stripped string when no colon). -/
def extract_error_code (error_message : List Char) : List Char :=
  pyStrip (beforeColon error_message)

theorem hasChar_append (c : Char) (l₁ l₂ : List Char) :
    hasChar c (l₁ ++ l₂) = (hasChar c l₁ || hasChar c l₂) := by
  induction l₁ with
  | nil => simp [hasChar]
  | cons d ds ih => simp [hasChar, ih, Bool.or_assoc]

theorem beforeColon_append (key rest : List Char) (h : hasChar ':' key = false) :
    beforeColon (key ++ rest) = key ++ beforeColon rest := by
  induction key with
  | nil => simp
  | cons d ds ih =>
      simp only [hasChar, Bool.or_eq_false_iff] at h
      obtain ⟨hd, hds⟩ := h
      simp [beforeColon, hd, ih hds]

theorem beforeColon_of_no_colon (msg : List Char) (h : hasChar ':' msg = false) :
    beforeColon msg = msg := by
  induction msg with
  | nil => rfl
  | cons d ds ih =>
      simp only [hasChar, Bool.or_eq_false_iff] at h
      obtain ⟨hd, hds⟩ := h
      simp [beforeColon, hd, ih hds]

theorem mapping_props :
    ∀ p ∈ ERROR_CODE_MAPPING,
      hasChar ':' p.1 = false ∧ pyStrip p.1 = p.1 ∧ lookupCode p.1 = some p.2 := by
  decide

/-- C1: for every code in the mapping table, a message of the form
"<code>: <text>" is mapped to the documented status, with the message
returned unchanged. -/
theorem C1_mapping_table_statuses (code : List Char) (st : Nat) (text : List Char)
    (h : (code, st) ∈ ERROR_CODE_MAPPING) :
    map_sp_error_to_http (code ++ ':' :: ' ' :: text)
      = (st, code ++ ':' :: ' ' :: text) := by
  obtain ⟨hnc, hstrip, hlook⟩ := mapping_props _ h
  have h1 : hasChar ':' (code ++ ':' :: ' ' :: text) = true := by
    rw [hasChar_append]
    simp [hasChar]
  have h2 : beforeColon (code ++ ':' :: ' ' :: text) = code := by
    rw [beforeColon_append _ _ hnc]
    simp [beforeColon]
  simp only [map_sp_error_to_http, h1, if_true, h2, hstrip, hlook, Option.getD_some]

/-- C1 witness: the concrete scenario "DUPLICATE_REPORT: already reported"
yields HTTP 409 with the message unchanged. -/
theorem C1_witness :
    ("DUPLICATE_REPORT".data, 409) ∈ ERROR_CODE_MAPPING ∧
    map_sp_error_to_http ("DUPLICATE_REPORT: already reported".data)
      = (409, "DUPLICATE_REPORT: already reported".data) := by
  refine ⟨by decide, ?_⟩
  have e : "DUPLICATE_REPORT: already reported".data
      = "DUPLICATE_REPORT".data ++ ':' :: ' ' :: "already reported".data := by decide
  rw [e]
  exact C1_mapping_table_statuses ("DUPLICATE_REPORT".data) 409
    ("already reported".data) (by decide)

/-- An identity record as selected by get_current_user from activity.users:
user_id, email, roles (nullable in the database), is_verified, status. -/
structure UserRecord where
  user_id : List Char
  email : List Char
  roles : Option (List (List Char))
  is_verified : Bool
  status : List Char
deriving DecidableEq

/-- Outcome of jwt.decode inside get_current_user: a JWTError (signature,
expiry, or malformed-claims failure), or a claims payload whose "sub" lookup
yields an optional subject. -/
inductive DecodeOutcome where
  | jwtError (err : List Char)
  | payload (sub : Option (List Char))
deriving DecidableEq

/-- Result of an auth dependency: an HTTPException with status code and
detail, or the current_user dict (user_id, email, roles). -/
inductive AuthResult where
  | httpError (status_code : Nat) (detail : List Char)
  | currentUser (user_id email : List Char) (roles : List (List Char))
deriving DecidableEq

/-- src/app/middleware/auth.py, get_current_user: decode the bearer token
(JWTError → 401), require the sub claim (absent → 401), fetch the identity
record (missing → 401), require is_verified (false → 401), require status
"active" (other → 403 carrying the status), then return user_id, email and
roles with a null roles column collapsed to the empty list. -/
def get_current_user (decoded : DecodeOutcome)
    (fetch_user : List Char → Option UserRecord) : AuthResult :=
  match decoded with
  | .jwtError _ => .httpError 401 "Invalid authentication credentials".data
  | .payload none => .httpError 401 "Invalid authentication credentials".data
  | .payload (some user_id) =>
    match fetch_user user_id with
    | none => .httpError 401 "Invalid authentication credentials".data
    | some r =>
      if r.is_verified = false then .httpError 401 "Email not verified".data
      else if r.status ≠ "active".data then
        .httpError 403 ("Account is ".data ++ r.status)
      else .currentUser r.user_id r.email (r.roles.getD [])

/-- src/app/middleware/auth.py, require_admin: given the current_user
produced by get_current_user, fail 403 with the INSUFFICIENT_PERMISSIONS
detail unless the roles list holds "admin" or "moderator". -/
def require_admin (user_id email : List Char) (roles : List (List Char)) : AuthResult :=
  if roles.contains "admin".data = false ∧ roles.contains "moderator".data = false then
    .httpError 403 ("INSUFFICIENT_PERMISSIONS".data
      ++ ": Admin or moderator role required".data)
  else .currentUser user_id email roles

/-- C2 counterexample: for an error message whose code is not in the mapping
table the translator does return status 500, but the message component is the
raw low-level error text itself, unchanged — not a generic internal-error
message. -/
theorem C2_counterexample :
    lookupCode (extract_error_code
        ("UNEXPECTED_STORAGE_FAILURE: raw storage internals".data)) = none ∧
    map_sp_error_to_http ("UNEXPECTED_STORAGE_FAILURE: raw storage internals".data)
      = (500, "UNEXPECTED_STORAGE_FAILURE: raw storage internals".data) := by
  constructor
  · decide
  · decide

/-- C2 amended: for every error message whose extracted code is not in the
mapping table, the translator returns status 500 together with the original
message unchanged (the unrecognized text is passed through verbatim). -/
theorem C2_unmapped_code_behavior (msg : List Char)
    (h : lookupCode (extract_error_code msg) = none) :
    map_sp_error_to_http msg = (500, msg) := by
  unfold extract_error_code at h
  by_cases hc : hasChar ':' msg = true
  · simp only [map_sp_error_to_http, hc, if_true, h, Option.getD_none]
  · have hc' : hasChar ':' msg = false := by
      cases hhc : hasChar ':' msg
      · rfl
      · exact absurd hhc hc
    rw [beforeColon_of_no_colon msg hc'] at h
    simp only [map_sp_error_to_http, hc', Bool.false_eq_true, if_false, h,
      Option.getD_none]

/-- C2 amended, witness at a concrete unmapped message. -/
theorem C2_unmapped_witness :
    lookupCode (extract_error_code ("WEIRD_CODE: boom".data)) = none ∧
    map_sp_error_to_http ("WEIRD_CODE: boom".data) = (500, "WEIRD_CODE: boom".data) :=
  ⟨by decide, C2_unmapped_code_behavior ("WEIRD_CODE: boom".data) (by decide)⟩

/-- C9: map_sp_error_to_http is total, always returns its input unchanged as
the message, and the status is exactly the table lookup (default 500) of the
whitespace-stripped substring before the first colon; a bare code with no
colon, such as "USER_NOT_FOUND", still maps to its documented status. -/
theorem C9_translator_shape :
    (∀ msg, map_sp_error_to_http msg
      = ((lookupCode (extract_error_code msg)).getD 500, msg)) ∧
    map_sp_error_to_http ("USER_NOT_FOUND".data) = (404, "USER_NOT_FOUND".data) := by
  constructor
  · intro msg
    by_cases hc : hasChar ':' msg = true
    · simp only [map_sp_error_to_http, extract_error_code, hc, if_true]
    · have hc' : hasChar ':' msg = false := by
        cases hhc : hasChar ':' msg
        · rfl
        · exact absurd hhc hc
      simp only [map_sp_error_to_http, extract_error_code, hc', Bool.false_eq_true,
        if_false, beforeColon_of_no_colon msg hc']
  · decide

/-- C3: get_current_user fails 401 on any JWT error, on an absent sub claim,
on a missing identity record, or on an unverified record; fails 403 carrying
the account status when status is not "active"; and only otherwise returns
the record's user_id, email and roles. -/
theorem C3_get_current_user (fetch_user : List Char → Option UserRecord)
    (uid : List Char) (r : UserRecord) :
    (∀ e, get_current_user (.jwtError e) fetch_user
      = .httpError 401 "Invalid authentication credentials".data) ∧
    (get_current_user (.payload none) fetch_user
      = .httpError 401 "Invalid authentication credentials".data) ∧
    (fetch_user uid = none → get_current_user (.payload (some uid)) fetch_user
      = .httpError 401 "Invalid authentication credentials".data) ∧
    (fetch_user uid = some r → r.is_verified = false →
      get_current_user (.payload (some uid)) fetch_user
        = .httpError 401 "Email not verified".data) ∧
    (fetch_user uid = some r → r.is_verified = true → r.status ≠ "active".data →
      get_current_user (.payload (some uid)) fetch_user
        = .httpError 403 ("Account is ".data ++ r.status)) ∧
    (fetch_user uid = some r → r.is_verified = true → r.status = "active".data →
      get_current_user (.payload (some uid)) fetch_user
        = .currentUser r.user_id r.email (r.roles.getD [])) := by
  refine ⟨fun e => rfl, rfl, ?_, ?_, ?_, ?_⟩
  · intro h
    simp [get_current_user, h]
  · intro h hv
    simp [get_current_user, h, hv]
  · intro h hv hs
    simp [get_current_user, h, hv, hs]
  · intro h hv hs
    simp [get_current_user, h, hv, hs]

/-- C3 witness: one concrete identity table exercising the active, suspended
and missing-record branches. -/
theorem C3_witness :
    get_current_user (.payload (some "u1".data))
        (fun u => if u = "u1".data then
            some ⟨"u1".data, "a@b.c".data, some ["admin".data], true, "active".data⟩
          else if u = "u2".data then
            some ⟨"u2".data, "d@e.f".data, none, true, "suspended".data⟩
          else none)
      = .currentUser "u1".data "a@b.c".data ["admin".data] ∧
    get_current_user (.payload (some "u2".data))
        (fun u => if u = "u1".data then
            some ⟨"u1".data, "a@b.c".data, some ["admin".data], true, "active".data⟩
          else if u = "u2".data then
            some ⟨"u2".data, "d@e.f".data, none, true, "suspended".data⟩
          else none)
      = .httpError 403 ("Account is ".data ++ "suspended".data) ∧
    get_current_user (.payload (some "u3".data))
        (fun u => if u = "u1".data then
            some ⟨"u1".data, "a@b.c".data, some ["admin".data], true, "active".data⟩
          else if u = "u2".data then
            some ⟨"u2".data, "d@e.f".data, none, true, "suspended".data⟩
          else none)
      = .httpError 401 "Invalid authentication credentials".data := by
  refine ⟨?_, ?_, ?_⟩
  · exact (C3_get_current_user _ "u1".data
      ⟨"u1".data, "a@b.c".data, some ["admin".data], true, "active".data⟩).2.2.2.2.2
      (by decide) rfl (by decide)
  · exact (C3_get_current_user _ "u2".data
      ⟨"u2".data, "d@e.f".data, none, true, "suspended".data⟩).2.2.2.2.1
      (by decide) rfl (by decide)
  · exact (C3_get_current_user _ "u3".data
      ⟨"u3".data, "x".data, none, true, "active".data⟩).2.2.1 (by decide)

/-- C4: an actor whose roles exclude both admin and moderator is rejected by
require_admin with 403 and a detail beginning with INSUFFICIENT_PERMISSIONS;
an actor whose roles meet admin or moderator passes through unchanged. -/
theorem C4_elevated_check (user_id email : List Char) (roles : List (List Char)) :
    ("admin".data ∉ roles ∧ "moderator".data ∉ roles →
      require_admin user_id email roles
        = .httpError 403 ("INSUFFICIENT_PERMISSIONS".data
            ++ ": Admin or moderator role required".data)) ∧
    ("admin".data ∈ roles ∨ "moderator".data ∈ roles →
      require_admin user_id email roles = .currentUser user_id email roles) := by
  constructor
  · intro h
    simp [require_admin, h.1, h.2]
  · intro h
    rcases h with h | h
    · simp [require_admin, h]
    · simp [require_admin, h]

/-- C4 witness: roles ["user"] are rejected with the INSUFFICIENT_PERMISSIONS
detail; roles ["moderator"] pass. -/
theorem C4_witness :
    require_admin "u1".data "a@b.c".data ["user".data]
      = .httpError 403 ("INSUFFICIENT_PERMISSIONS".data
          ++ ": Admin or moderator role required".data) ∧
    require_admin "u1".data "a@b.c".data ["moderator".data]
      = .currentUser "u1".data "a@b.c".data ["moderator".data] :=
  ⟨(C4_elevated_check "u1".data "a@b.c".data ["user".data]).1 (by decide),
   (C4_elevated_check "u1".data "a@b.c".data ["moderator".data]).2 (Or.inr (by decide))⟩

/-- C10: a verified active record whose roles column is null yields an actor
with the empty roles list (never null), and require_admin rejects that actor
with 403 rather than failing in an unclassified way. -/
theorem C10_null_roles (fetch_user : List Char → Option UserRecord)
    (uid : List Char) (r : UserRecord) (h : fetch_user uid = some r)
    (hv : r.is_verified = true) (hs : r.status = "active".data)
    (hr : r.roles = none) :
    get_current_user (.payload (some uid)) fetch_user
      = .currentUser r.user_id r.email [] ∧
    require_admin r.user_id r.email []
      = .httpError 403 ("INSUFFICIENT_PERMISSIONS".data
          ++ ": Admin or moderator role required".data) := by
  constructor
  · simp [get_current_user, h, hv, hs, hr]
  · simp [require_admin]

/-- C10 witness: a concrete record with a null roles column. -/
theorem C10_witness :
    get_current_user (.payload (some "u9".data))
        (fun u => if u = "u9".data then
            some ⟨"u9".data, "n@m.o".data, none, true, "active".data⟩
          else none)
      = .currentUser "u9".data "n@m.o".data [] ∧
    require_admin "u9".data "n@m.o".data []
      = .httpError 403 ("INSUFFICIENT_PERMISSIONS".data
          ++ ": Admin or moderator role required".data) :=
  C10_null_roles _ "u9".data
    ⟨"u9".data, "n@m.o".data, none, true, "active".data⟩ (by decide) rfl rfl rfl

/-- Outcome of the stored-procedure dispatch (db.fetch_one) in create_report:
a result row holding the JSON payload, or an asyncpg.PostgresError message. -/
inductive ExecOutcome where
  | row (payload : List Char)
  | pgError (msg : List Char)
deriving DecidableEq

/-- Outcome of one route invocation: a success response or an HTTPException. -/
inductive RouteOutcome where
  | success (status_code : Nat) (payload : List Char)
  | failure (status_code : Nat) (detail : List Char)
deriving DecidableEq

/-- src/app/routes/reports.py, create_report body once dependencies have
resolved: dispatch the stored procedure, answer 201 with its payload, or
translate an asyncpg.PostgresError through map_sp_error_to_http. -/
def create_report_body (executor : ExecOutcome) : RouteOutcome :=
  match executor with
  | .row payload => .success 201 payload
  | .pgError msg =>
      let r := map_sp_error_to_http msg
      .failure r.1 r.2

/-- FastAPI dependency semantics for create_report: Depends(get_current_user)
resolves before the handler body, so when the dependency raises, the body —
and with it the stored-procedure dispatch — never runs. The Bool records
whether the Command Executor was invoked. -/
def run_create_report (auth : AuthResult) (executor : ExecOutcome) :
    Bool × RouteOutcome :=
  match auth with
  | .httpError s d => (false, .failure s d)
  | .currentUser _ _ _ => (true, create_report_body executor)

/-- C5: whenever authentication fails with 401, the route answers 401 and the
Command Executor is never invoked. -/
theorem C5_no_dispatch_without_credential (decoded : DecodeOutcome)
    (fetch_user : List Char → Option UserRecord) (executor : ExecOutcome)
    (d : List Char)
    (h : get_current_user decoded fetch_user = .httpError 401 d) :
    run_create_report (get_current_user decoded fetch_user) executor
      = (false, .failure 401 d) := by
  rw [h]
  rfl

/-- C5 witness: an invalid token never reaches the executor. -/
theorem C5_witness :
    run_create_report
        (get_current_user (.jwtError "bad signature".data) (fun _ => none))
        (.row "unused".data)
      = (false, .failure 401 "Invalid authentication credentials".data) :=
  C5_no_dispatch_without_credential (.jwtError "bad signature".data)
    (fun _ => none) (.row "unused".data)
    "Invalid authentication credentials".data rfl

/-- A response of the email service as seen by httpx. -/
structure HttpResponse where
  status_code : Nat
  body : List Char
deriving DecidableEq

/-- Outcome of the httpx POST inside send_email: an httpx.HTTPError raised in
transit (timeout, connection failure), or a response. -/
inductive TransportOutcome where
  | transportError (err : List Char)
  | response (resp : HttpResponse)
deriving DecidableEq

/-- src/app/services/email.py, EmailAPIClient.send_email: POST to the email
service, response.raise_for_status() (a 4xx/5xx status raises), return the
JSON body; every httpx.HTTPError is caught, logged, and the call returns
None. -/
def send_email (outcome : TransportOutcome) : Option (List Char) :=
  match outcome with
  | .transportError _ => none
  | .response resp =>
      if 400 ≤ resp.status_code then none
      else some resp.body

/-- The fields of the ban_user stored-procedure result that the route reads:
the optional recipient email and the payload the response is built from. -/
structure BanData where
  email : Option (List Char)
  payload : List Char
deriving DecidableEq

/-- src/app/routes/users.py, ban_user after a successful stored-procedure
call: attempt the notification when a recipient email is present (its result
is discarded) and answer 200 with the response built from the command result
alone. -/
def ban_user_after_command (data : BanData) (transport : TransportOutcome) :
    RouteOutcome :=
  let _email_result := if data.email.isSome then send_email transport else none
  .success 200 data.payload

/-- C6: the response after a successful ban command is the same whatever the
notifier transport does; transport errors and non-success statuses are
absorbed inside send_email, which returns None instead of raising. -/
theorem C6_notifier_never_alters_response (data : BanData)
    (t₁ t₂ : TransportOutcome) :
    ban_user_after_command data t₁ = ban_user_after_command data t₂ ∧
    ban_user_after_command data t₁ = .success 200 data.payload ∧
    (∀ e, send_email (.transportError e) = none) ∧
    (∀ resp : HttpResponse, 400 ≤ resp.status_code →
      send_email (.response resp) = none) := by
  refine ⟨rfl, rfl, fun e => rfl, fun resp h => ?_⟩
  simp [send_email, h]

/-- C6 witness: a timed-out notification and a delivered one produce the same
200 response; the timeout and a 503 from the email service both collapse to
None. -/
theorem C6_witness :
    ban_user_after_command ⟨some "x@y.z".data, "banned".data⟩
        (.transportError "timeout".data)
      = ban_user_after_command ⟨some "x@y.z".data, "banned".data⟩
          (.response ⟨200, "sent".data⟩) ∧
    ban_user_after_command ⟨some "x@y.z".data, "banned".data⟩
        (.transportError "timeout".data)
      = .success 200 "banned".data ∧
    send_email (.transportError "timeout".data) = none ∧
    send_email (.response ⟨503, "unavailable".data⟩) = none :=
  ⟨(C6_notifier_never_alters_response ⟨some "x@y.z".data, "banned".data⟩
      (.transportError "timeout".data) (.response ⟨200, "sent".data⟩)).1,
   (C6_notifier_never_alters_response ⟨some "x@y.z".data, "banned".data⟩
      (.transportError "timeout".data) (.response ⟨200, "sent".data⟩)).2.1,
   (C6_notifier_never_alters_response ⟨some "x@y.z".data, "banned".data⟩
      (.transportError "timeout".data) (.response ⟨200, "sent".data⟩)).2.2.1
      "timeout".data,
   (C6_notifier_never_alters_response ⟨some "x@y.z".data, "banned".data⟩
      (.transportError "timeout".data) (.response ⟨200, "sent".data⟩)).2.2.2
      ⟨503, "unavailable".data⟩ (by decide)⟩

/-- Modelled from the spec: the Admission Limiter's per-key window state
(count, window_start). The fixed-window algorithm itself lives in the
slowapi/limits dependency, outside this repository; in-tree are only its
configuration (the per-route "N/minute" declarations and the
RATE_LIMIT_ENABLED switch wired into the Limiter in src/app/main.py). -/
structure AdmissionWindow where
  count : Nat
  window_start : Nat
deriving DecidableEq

/-- Modelled from the spec: one Admission Limiter check at time `now` against
limit `(max_count, window_duration)` for a single admission key. Disabled →
always allow; no window or an elapsed window → start a new window with
count 1 and allow; otherwise increment and allow iff count ≤ max_count. -/
def check (enabled : Bool) (max_count window_duration now : Nat)
    (st : Option AdmissionWindow) : Bool × Option AdmissionWindow :=
  if enabled = false then (true, st)
  else
    match st with
    | none => (true, some ⟨1, now⟩)
    | some w =>
        if w.window_start + window_duration ≤ now then (true, some ⟨1, now⟩)
        else
          (decide (w.count + 1 ≤ max_count), some ⟨w.count + 1, w.window_start⟩)

/-- A sequence of check calls at the given times, threading the window
state; returns the list of allow decisions and the final state. -/
def runChecks (enabled : Bool) (max_count window_duration : Nat)
    (times : List Nat) (st : Option AdmissionWindow) :
    List Bool × Option AdmissionWindow :=
  match times with
  | [] => ([], st)
  | t :: ts =>
      let r := check enabled max_count window_duration t st
      let rest := runChecks enabled max_count window_duration ts r.2
      (r.1 :: rest.1, rest.2)

theorem runChecks_in_window (N W t₀ : Nat) (ts : List Nat)
    (hts : ∀ t ∈ ts, t < t₀ + W) :
    ∀ c : Nat, c + ts.length ≤ N →
      runChecks true N W ts (some ⟨c, t₀⟩)
        = (List.replicate ts.length true, some ⟨c + ts.length, t₀⟩) := by
  induction ts with
  | nil => intro c _; simp [runChecks]
  | cons t ts ih =>
      intro c hc
      have ht : t < t₀ + W := hts t (List.mem_cons_self t ts)
      have hne : ¬ (t₀ + W ≤ t) := Nat.not_le.mpr ht
      have hcnt : c + 1 ≤ N := by
        have := hc
        simp only [List.length_cons] at this
        omega
      have hstep : check true N W t (some ⟨c, t₀⟩)
          = (true, some ⟨c + 1, t₀⟩) := by
        simp [check, hne, hcnt]
      have hrest := ih (fun u hu => hts u (List.mem_cons_of_mem t hu)) (c + 1)
        (by simp only [List.length_cons] at hc; omega)
      simp only [runChecks, hstep, hrest, List.length_cons]
      rw [List.replicate_succ]
      have harith : c + 1 + ts.length = c + (ts.length + 1) := by omega
      rw [harith]

/-- C7: with limit (N, W) and a single admission key, the first call starts a
window and all N calls inside it are allowed; the (N+1)th call inside the same
window is denied; a call at or after the window boundary is allowed again; and
with rate limiting disabled every check allows. -/
theorem C7_fixed_window (N W : Nat) (hN : 0 < N) (_hW : 0 < W)
    (t₁ : Nat) (rest : List Nat) (hlen : rest.length = N - 1)
    (hrest : ∀ t ∈ rest, t < t₁ + W)
    (tExtra : Nat) (hExtra : tExtra < t₁ + W)
    (tAfter : Nat) (hAfter : t₁ + W ≤ tAfter) :
    (runChecks true N W (t₁ :: rest) none).1 = List.replicate N true ∧
    (check true N W tExtra (runChecks true N W (t₁ :: rest) none).2).1
      = false ∧
    (check true N W tAfter
        (check true N W tExtra (runChecks true N W (t₁ :: rest) none).2).2).1
      = true ∧
    (∀ max_count window_duration now st,
      (check false max_count window_duration now st).1 = true) := by
  have hfirst : check true N W t₁ none = (true, some ⟨1, t₁⟩) := by
    simp [check]
  have hrun := runChecks_in_window N W t₁ rest hrest 1 (by omega)
  have hall : runChecks true N W (t₁ :: rest) none
      = (List.replicate N true, some ⟨N, t₁⟩) := by
    simp only [runChecks, hfirst, hrun]
    have hN1 : N = rest.length + 1 := by omega
    conv_rhs => rw [hN1]
    rw [List.replicate_succ]
    have harith : 1 + rest.length = rest.length + 1 := by omega
    rw [harith]
  refine ⟨by rw [hall], ?_, ?_, ?_⟩
  · rw [hall]
    have hne : ¬ (t₁ + W ≤ tExtra) := Nat.not_le.mpr hExtra
    have hover : ¬ (N + 1 ≤ N) := by omega
    simp [check, hne, hover]
  · rw [hall]
    have hne : ¬ (t₁ + W ≤ tExtra) := Nat.not_le.mpr hExtra
    simp [check, hne, hAfter]
  · intro max_count window_duration now st
    rfl

/-- C7 witness: the report-creation limit 10/minute on one key — ten calls at
time 0 allowed, the eleventh denied, a call at 60 allowed again, and a
disabled limiter always allows. -/
theorem C7_witness :
    (runChecks true 10 60 (0 :: List.replicate 9 0) none).1
      = List.replicate 10 true ∧
    (check true 10 60 0 (runChecks true 10 60 (0 :: List.replicate 9 0) none).2).1
      = false ∧
    (check true 10 60 60
        (check true 10 60 0
          (runChecks true 10 60 (0 :: List.replicate 9 0) none).2).2).1
      = true ∧
    (check false 10 60 0 none).1 = true := by
  have h := C7_fixed_window 10 60 (by decide) (by decide) 0
    (List.replicate 9 0) (by decide)
    (by intro t ht; simp at ht; omega) 0 (by decide) 60 (by decide)
  exact ⟨h.1, h.2.1, h.2.2.1, h.2.2.2 10 60 0 none⟩

/-- Reachability of the database dependency as health_check observes it: pool
absent, probe query raising, or probe succeeding. -/
inductive DbProbe where
  | noPool
  | probeError (err : List Char)
  | reachable
deriving DecidableEq

/-- The health payload: status, service, database fields. -/
structure HealthResponse where
  status : List Char
  service : List Char
  database : List Char
deriving DecidableEq

/-- src/app/main.py, health_check: start from status ok with the service
name; a successful probe sets database ok; an absent pool sets database
not_connected and status degraded; a raising probe sets database to the error
text and status degraded; the route always answers HTTP 200. -/
def health_check (probe : DbProbe) : Nat × HealthResponse :=
  match probe with
  | .reachable => (200, ⟨"ok".data, "moderation-api".data, "ok".data⟩)
  | .noPool =>
      (200, ⟨"degraded".data, "moderation-api".data, "not_connected".data⟩)
  | .probeError e =>
      (200, ⟨"degraded".data, "moderation-api".data, "error: ".data ++ e⟩)

/-- C8: health_check always answers 200 and names the service; with no
reachable database (pool absent or probe raising) the status is "degraded",
and with a reachable database it is "ok" with database "ok". -/
theorem C8_health_degraded_not_5xx :
    (∀ probe, (health_check probe).1 = 200 ∧
      (health_check probe).2.service = "moderation-api".data) ∧
    (health_check .noPool).2.status = "degraded".data ∧
    (∀ e, (health_check (.probeError e)).2.status = "degraded".data) ∧
    health_check .reachable
      = (200, ⟨"ok".data, "moderation-api".data, "ok".data⟩) := by
  refine ⟨fun probe => ?_, rfl, fun e => rfl, rfl⟩
  cases probe <;> exact ⟨rfl, rfl⟩

end ModerationAPI
